import Mathlib

/-!
Verification of the Session and Workflow Orchestration Engine of the
taskify-user backend (src/backend/vahan_automation.py).

The Python module is shallowly embedded: every function that a claim talks
about is translated to a total, executable Lean function.  The external
browser (the remote automation endpoint) is abstracted into explicit
environment records: each field of an environment records the outcome the
browser would produce at one interaction point of the code (a wait that
either finds the element, times out, or raises some other exception; the
result of reading the current URL; the presence of the recovery
affordance; and so on).  Timestamps are modelled as rationals, file
contents as an explicit record, the process-global mutable variables
(driver_instance, is_logged_in, the session file) as a state record that
every stateful operation takes and returns.  Free-text messages of the
result dictionaries are not modelled; the machine-readable success flag
and status code are.
-/

namespace Vahan

/-- Execution context of the driver: top-level document or the nested DMS
iframe entered in the checkbox-sweep step. -/
inductive Ctx
  | top
  | frame
deriving DecidableEq, Repr

/-- Outcome of one locate/act interaction with the browser: the element was
found and acted on, the bounded wait raised TimeoutException, or some
other exception was raised. -/
inductive StepOutcome
  | ok
  | timeout
  | err
deriving DecidableEq, Repr

/-- Session record persisted to .vahan_session.json by save_session_info:
has_driver, is_logged_in and the write timestamp (time.time()). -/
structure SessionRecord where
  has_driver : Bool
  is_logged_in : Bool
  timestamp : ℚ
deriving DecidableEq, Repr

/-- The process-global mutable state of vahan_automation.py: the
driver_instance handle (opaque, so Option Unit), the is_logged_in flag,
and the contents of the session file (none when the file is absent). -/
structure GlobalState where
  driver : Option Unit
  loggedIn : Bool
  file : Option SessionRecord
deriving DecidableEq, Repr

/-- Embedding of save_session_info: builds the record written to the
session file from the current has_driver and is_logged_in values and the
current time. -/
def save_session_info (hasDriver isLoggedIn : Bool) (now : ℚ) : SessionRecord :=
  { has_driver := hasDriver, is_logged_in := isLoggedIn, timestamp := now }

/-- Embedding of load_session_info: returns the stored record when the file
exists and its timestamp is strictly less than 3600 seconds old, and none
otherwise. -/
def load_session_info (file : Option SessionRecord) (now : ℚ) : Option SessionRecord :=
  match file with
  | none => none
  | some r => if now - r.timestamp < 3600 then some r else none

/-- Lower-cases every character of a string, as Python str.lower does for
the ASCII URLs handled here. -/
def lowerStr (s : String) : String :=
  String.mk (s.toList.map Char.toLower)

/-- Python substring test (pat in s). -/
def containsSub (s pat : String) : Bool :=
  decide (List.IsInfix pat.toList s.toList)

/-- Classification used both by check_browser_status and by the login gate:
a URL counts as logged in when it is on the Vahan site and does not
mention login (case-insensitively). -/
def urlLoggedIn (url : String) : Bool :=
  containsSub url "vahan.parivahan.gov.in" && !containsSub (lowerStr url) "login"

section LoginGate

/-- Environment of one run of wait_for_login.  initialRead is the
driver.current_url read before the loop; reads n is the read on poll tick
n; markers n says whether the post-login marker elements are found on tick
n.  A failed read carries a flag telling whether its message mentions a
lost connection (the code returns false in either case). -/
structure LoginEnv where
  initialRead : Except Bool String
  reads : ℕ → Except Bool String
  markers : ℕ → Bool

/-- Predicate telling whether a URL read succeeded. -/
def readOk (r : Except Bool String) : Bool :=
  match r with
  | .ok _ => true
  | .error _ => false

/-- Success condition of one poll tick of wait_for_login: the read
succeeds and either the URL changed away from the initial URL to one not
mentioning login, or the post-login markers are present. -/
def login_success_tick (loginUrl : String) (env : LoginEnv) (n : ℕ) : Bool :=
  match env.reads n with
  | .error _ => false
  | .ok url => (decide (url ≠ loginUrl) && !containsSub (lowerStr url) "login") || env.markers n

/-- The polling loop of wait_for_login: fuel is the number of 2-second
ticks the 300-second budget allows, n the index of the current tick.  A
read failure of any kind returns false at once; the URL-change condition
is checked first, then the marker condition; when neither holds the loop
sleeps and polls again; exhausted fuel is the timeout. -/
def wait_for_login_go (loginUrl : String) (env : LoginEnv) : ℕ → ℕ → Bool
  | 0, _ => false
  | fuel + 1, n =>
    match env.reads n with
    | .error _ => false
    | .ok url =>
      match decide (url ≠ loginUrl) && !containsSub (lowerStr url) "login", env.markers n with
      | true, _ => true
      | false, true => true
      | false, false => wait_for_login_go loginUrl env fuel (n + 1)

/-- Embedding of wait_for_login: reads the initial URL (returning false if
that read raises), then polls. -/
def wait_for_login (env : LoginEnv) (fuel : ℕ) : Bool :=
  match env.initialRead with
  | .error _ => false
  | .ok loginUrl => wait_for_login_go loginUrl env fuel 0

end LoginGate

/-- Observable interactions with the outside world performed by the
session-lifecycle operations.  attach is the uc.Chrome call carrying a
debuggerAddress option (connecting to an already running endpoint);
createBrowser is a uc.Chrome call without it (the creation strategies of
create_vahan_driver); quitAttached is the quit of a half-connected driver
inside try_connect_to_existing_chrome. -/
inductive Effect
  | probePort
  | attach
  | createBrowser
  | readUrl
  | quitAttached
  | quitBrowser
  | saveSession (r : SessionRecord)
  | clearSession
deriving DecidableEq, Repr

/-- Environment of one status probe: whether the debug port 9222 accepts a
TCP connection, whether the uc.Chrome attach call succeeds, whether the
verification read inside try_connect_to_existing_chrome succeeds, and the
outcome of the current_url read performed by check_browser_status on the
held driver. -/
structure StatusEnv where
  portOpen : Bool
  attachOk : Bool
  attachVerifyOk : Bool
  urlRead : Except Unit String
deriving Repr

/-- Result fields of check_browser_status (the free-text message is not
modelled). -/
structure StatusResult where
  browser_open : Bool
  logged_in : Bool
  current_url : Option String
deriving DecidableEq, Repr

/-- Embedding of try_connect_to_existing_chrome: re-probes the debug port,
and if open attaches with debuggerAddress and verifies the connection by a
current_url read, quitting the attached driver when the verification
fails.  Every exception inside the function is caught, so it never
throws. -/
def try_connect_to_existing_chrome (env : StatusEnv) : Option Unit × List Effect :=
  if env.portOpen = false then (none, [Effect.probePort])
  else if env.attachOk = false then (none, [Effect.probePort, Effect.attach])
  else if env.attachVerifyOk then (some (), [Effect.probePort, Effect.attach, Effect.readUrl])
  else (none, [Effect.probePort, Effect.attach, Effect.readUrl, Effect.quitAttached])

/-- The second half of check_browser_status, reached with a driver in
hand: reads current_url; on failure clears the handle, the login flag and
the session file; on success classifies the URL, updates the login flag
and saves the session record. -/
def driver_liveness_check (st : GlobalState) (env : StatusEnv) (now : ℚ)
    (effs : List Effect) : StatusResult × GlobalState × List Effect :=
  match env.urlRead with
  | .error _ =>
    (⟨false, false, none⟩, ⟨none, false, none⟩, effs ++ [Effect.readUrl, Effect.clearSession])
  | .ok url =>
    if urlLoggedIn url then
      let r := save_session_info st.driver.isSome true now
      (⟨true, true, some url⟩, ⟨st.driver, true, some r⟩,
        effs ++ [Effect.readUrl, Effect.saveSession r])
    else
      let r := save_session_info st.driver.isSome false now
      (⟨true, false, some url⟩, ⟨st.driver, false, some r⟩,
        effs ++ [Effect.readUrl, Effect.saveSession r])

/-- Embedding of check_browser_status: with no in-memory driver it first
probes the debug port and returns closed at once when the probe fails;
when the probe succeeds it tries to attach via
try_connect_to_existing_chrome, adopting the connection on success and
reporting closed on failure.  With a driver in hand it performs the
liveness read and URL classification. -/
def check_browser_status (st : GlobalState) (env : StatusEnv) (now : ℚ) :
    StatusResult × GlobalState × List Effect :=
  match st.driver with
  | some _ => driver_liveness_check st env now []
  | none =>
    if env.portOpen = false then
      (⟨false, false, none⟩, st, [Effect.probePort])
    else
      match try_connect_to_existing_chrome env with
      | (some _, effs) =>
          driver_liveness_check ⟨some (), st.loggedIn, st.file⟩ env now
            (Effect.probePort :: effs)
      | (none, effs) => (⟨false, false, none⟩, st, Effect.probePort :: effs)

/-- Embedding of close_vahan_browser: with a driver, quit it (quitOk tells
whether the quit raised), then in both cases null the handle, reset the
login flag, delete the session file, and return true exactly when the
quit did not raise; with no driver, delete the session file and return
true, leaving the login flag untouched. -/
def close_vahan_browser (st : GlobalState) (quitOk : Bool) :
    Bool × GlobalState × List Effect :=
  match st.driver with
  | some _ =>
    if quitOk then (true, ⟨none, false, none⟩, [Effect.quitBrowser, Effect.clearSession])
    else (false, ⟨none, false, none⟩, [Effect.quitBrowser, Effect.clearSession])
  | none => (true, ⟨none, st.loggedIn, none⟩, [Effect.clearSession])

/-- Embedding of create_vahan_driver: first tries to attach to an existing
endpoint; otherwise runs the ordered creation strategies, collapsed here
into one createBrowser effect whose success is createOk (none models the
final raise when every strategy failed). -/
def create_vahan_driver (cenv : StatusEnv) (createOk : Bool) : Option Unit × List Effect :=
  match try_connect_to_existing_chrome cenv with
  | (some d, effs) => (some d, effs)
  | (none, effs) =>
    if createOk then (some (), effs ++ [Effect.createBrowser])
    else (none, effs ++ [Effect.createBrowser])

/-- Outcome of one attempt of the navigation retry loop of
start_vahan_browser: the page loaded and left the driver at the given
URL, the load timed out, the connection was reset (both retried), or a
WebDriverException of another kind was raised (re-raised by the code). -/
inductive NavOutcome
  | loaded (url : String)
  | timeout
  | connReset
  | fatalWd

/-- Result of the navigation retry loop. -/
inductive NavResult
  | ok (url : String)
  | exhausted
  | fatal
deriving DecidableEq, Repr

/-- The navigation retry loop of start_vahan_browser (up to 3 attempts):
an attempt counts as loaded when the final URL is on the Vahan site or
mentions login; timeouts, connection resets and unexpected URLs consume a
retry; any other WebDriverException is re-raised. -/
def nav_attempts (nav : ℕ → NavOutcome) : ℕ → ℕ → NavResult
  | 0, _ => NavResult.exhausted
  | remaining + 1, idx =>
    match nav idx with
    | .loaded url =>
      if containsSub url "vahan.parivahan.gov.in" || containsSub (lowerStr url) "login"
      then NavResult.ok url
      else nav_attempts nav remaining (idx + 1)
    | .timeout => nav_attempts nav remaining (idx + 1)
    | .connReset => nav_attempts nav remaining (idx + 1)
    | .fatalWd => NavResult.fatal

/-- Environment of one call to start_vahan_browser: the environment of its
initial check_browser_status call, the login-wait environment used when a
browser was already open on the login page, the creation and navigation
environments of the fresh-start path, the login-wait environment of that
path, and the time of its save_session_info call. -/
structure StartEnv where
  senv : StatusEnv
  now : ℚ
  waitOpen : LoginEnv
  fuelOpen : ℕ
  cenv : StatusEnv
  createOk : Bool
  nav : ℕ → NavOutcome
  waitFresh : LoginEnv
  fuelFresh : ℕ
  now2 : ℚ

/-- Result fields of start_vahan_browser (reused_session is present only
on the already_logged_in path, as in the code). -/
structure StartResult where
  success : Bool
  status : String
  reused_session : Option Bool
deriving DecidableEq, Repr

/-- Embedding of start_vahan_browser.  Paths, in code order: browser open
and logged in reuses the session; browser open but not logged in waits
for the human to log in, and on success sets is_logged_in without writing
the session file; otherwise a driver is created (a raise from creation is
caught by the outer handler with the handle still absent), the site is
loaded with up to 3 attempts (a re-raised WebDriverException quits the
driver and clears the file; exhaustion quits the driver and leaves the
file), and on load success the login wait runs, saving the session record
only on this fresh-start login path. -/
def start_vahan_browser (st : GlobalState) (env : StartEnv) : StartResult × GlobalState :=
  let c := check_browser_status st env.senv env.now
  let st1 := c.2.1
  if c.1.browser_open && c.1.logged_in then
    (⟨true, "already_logged_in", some true⟩, st1)
  else if c.1.browser_open then
    if wait_for_login env.waitOpen env.fuelOpen then
      (⟨true, "login_success", none⟩, ⟨st1.driver, true, st1.file⟩)
    else
      (⟨false, "login_timeout", none⟩, st1)
  else
    match (create_vahan_driver env.cenv env.createOk).1 with
    | none => (⟨false, "error", none⟩, st1)
    | some _ =>
      match nav_attempts env.nav 3 0 with
      | .fatal => (⟨false, "error", none⟩, ⟨none, st1.loggedIn, none⟩)
      | .exhausted => (⟨false, "connection_error", none⟩, ⟨none, st1.loggedIn, st1.file⟩)
      | .ok _ =>
        if wait_for_login env.waitFresh env.fuelFresh then
          (⟨true, "login_success", none⟩,
            ⟨some (), true, some (save_session_info true true env.now2)⟩)
        else
          (⟨false, "login_timeout", none⟩, ⟨some (), st1.loggedIn, st1.file⟩)

section Sequencer

/-- Outcome of step 11 (clicking Modify/View Documents again), the one
step whose handler distinguishes WebDriverException from other
exceptions. -/
inductive Step11Outcome
  | ok
  | timeout
  | wdErr
  | err
deriving DecidableEq, Repr

/-- Environment of the work-item gate (step 5): whether the wait for the
workDetails table raised TimeoutException; how many approve buttons the
first-row query returned; the outcome of waiting for and clicking the
first approve button; and what the double-check inside the
TimeoutException handler observed (none when even locating the table
raised, some n when the row query returned n rows). -/
structure GateEnv where
  tableTimeout : Bool
  approveCount : ℕ
  clickOutcome : StepOutcome
  recheckRows : Option ℕ
deriving DecidableEq, Repr

/-- Environment of the iframe checkbox-sweep step (step 12): whether the
DMS iframe was found within the wait (a timeout there is re-raised into
the step-12 TimeoutException handler), and the outcome of waiting for the
approvedStatus checkboxes inside the frame.  Per-checkbox failures inside
the sweep are logged and skipped by the code and never change the result,
so they are not modelled. -/
structure IframeEnv where
  iframeFound : Bool
  boxesWait : StepOutcome
deriving DecidableEq, Repr

/-- Environment of one invocation of run_automation_internal: the result
of every browser interaction of that invocation, in step order.
homeInitial is the result of the check_for_back_to_home_page call made
before step 1 (its result does not influence control flow);
homeAfterStep1 and homeAfterBoxes are the results of the recovery checks
inside the step-1 and step-12 timeout handlers.  Step 1.5 (the optional
alert popup) swallows every exception and cannot change the result, so it
has no field. -/
structure IterEnv where
  homeInitial : Bool
  step1 : StepOutcome
  homeAfterStep1 : Bool
  step2 : StepOutcome
  step3 : StepOutcome
  step4 : StepOutcome
  gate : GateEnv
  step6 : StepOutcome
  step7 : StepOutcome
  step8 : StepOutcome
  step9 : StepOutcome
  step10 : StepOutcome
  step11 : Step11Outcome
  iframe : IframeEnv
  homeAfterBoxes : Bool
  step13 : StepOutcome
  step14 : StepOutcome
  step15 : StepOutcome
  step16 : StepOutcome
  step17 : StepOutcome
  step18 : StepOutcome
  step19 : StepOutcome
  step20 : StepOutcome
deriving DecidableEq, Repr

/-- The machine-readable part of the result dictionaries returned by the
sequencer (the free-text message is not modelled). -/
structure StepResult where
  success : Bool
  status : String
deriving DecidableEq, Repr

/-- Result of execute_remaining_steps together with two observations: the
driver execution context at the moment of return, and the number of
restarts of the step sequence performed below this call (the ghost
counter used to state the bounded-recovery claim). -/
structure ExecOut where
  result : StepResult
  ctx : Ctx
  restarts : ℕ
deriving DecidableEq, Repr

/-- Result of run_automation_internal: the returned dictionary, or
Except.error for an exception that escapes the function, together with
the final driver context and the restart counter. -/
structure SeqOut where
  res : Except Unit StepResult
  ctx : Ctx
  restarts : ℕ
deriving Repr

/-- A linear step inside the outer try of execute_remaining_steps whose
TimeoutException handler (its own, or the outer one) yields
timeoutStatus and whose other exceptions are caught with errStatus; on
success the remaining steps k run.  ctx is the ambient driver context at
the failure returns. -/
def linStep (o : StepOutcome) (timeoutStatus errStatus : String) (ctx : Ctx)
    (k : ExecOut) : ExecOut :=
  match o with
  | .ok => k
  | .timeout => ⟨⟨false, timeoutStatus⟩, ctx, 0⟩
  | .err => ⟨⟨false, errStatus⟩, ctx, 0⟩

/-- A step wrapped in a bare except-Exception handler, so that timeouts
and other exceptions both yield the same failStatus (steps 10 and 14). -/
def swallowStep (o : StepOutcome) (failStatus : String) (ctx : Ctx) (k : ExecOut) : ExecOut :=
  match o with
  | .ok => k
  | .timeout => ⟨⟨false, failStatus⟩, ctx, 0⟩
  | .err => ⟨⟨false, failStatus⟩, ctx, 0⟩

/-- Step 17: a timeout only logs a warning and execution proceeds; any
other exception reaches the outer handler with errStatus. -/
def warnStep (o : StepOutcome) (errStatus : String) (ctx : Ctx) (k : ExecOut) : ExecOut :=
  match o with
  | .ok => k
  | .timeout => k
  | .err => ⟨⟨false, errStatus⟩, ctx, 0⟩

/-- The double-check inside the TimeoutException handler of the gate step:
an empty row set means no more work (no_approve_button); rows present, or
a failure of the check itself, mean the table did not render
(table_not_found). -/
def gateRecheck (g : GateEnv) (ctx : Ctx) : ExecOut :=
  match g.recheckRows with
  | some 0 => ⟨⟨false, "no_approve_button"⟩, ctx, 0⟩
  | some (_ + 1) => ⟨⟨false, "table_not_found"⟩, ctx, 0⟩
  | none => ⟨⟨false, "table_not_found"⟩, ctx, 0⟩

/-- The work-item gate (step 5): wait for the pending-applications table,
return the terminal no_approve_button result at once when the approve
button query comes back empty, otherwise wait for and click the first
approve button; timeouts fall into the recheck handler and other
exceptions reach the outer handler. -/
def gateStep (g : GateEnv) (ctx : Ctx) (k : ExecOut) : ExecOut :=
  if g.tableTimeout then gateRecheck g ctx
  else if g.approveCount = 0 then ⟨⟨false, "no_approve_button"⟩, ctx, 0⟩
  else
    match g.clickOutcome with
    | .ok => k
    | .timeout => gateRecheck g ctx
    | .err => ⟨⟨false, "error"⟩, ctx, 0⟩

/-- Step 11 with its three handlers: TimeoutException, WebDriverException
and (via the outer handler) everything else. -/
def step11Gate (o : Step11Outcome) (ctx : Ctx) (k : ExecOut) : ExecOut :=
  match o with
  | .ok => k
  | .timeout => ⟨⟨false, "modify_button_2_not_found"⟩, ctx, 0⟩
  | .wdErr => ⟨⟨false, "modify_button_2_click_error"⟩, ctx, 0⟩
  | .err => ⟨⟨false, "error"⟩, ctx, 0⟩

/-- Use of the recovery restart inside the step-12 timeout handler: the
restart result is returned as is (an exception raised by the restarted
sequence is caught by the outer except-Exception handler of
execute_remaining_steps and converted to status error); with the retry
budget exhausted (recover none) the handler falls through to
checkboxes_not_found. -/
def sweepRecover (recover : Option SeqOut) : ExecOut :=
  match recover with
  | some r =>
    match r.res with
    | .ok rr => ⟨rr, r.ctx, r.restarts + 1⟩
    | .error _ => ⟨⟨false, "error"⟩, r.ctx, r.restarts + 1⟩
  | none => ⟨⟨false, "checkboxes_not_found"⟩, Ctx.top, 0⟩

/-- The TimeoutException handler of step 12: the driver context has
already been restored to the top-level document; the recovery affordance
is checked first and, when present and budget remains, the sequence is
restarted; otherwise checkboxes_not_found is returned. -/
def sweepTimeoutHandler (home : Bool) (recover : Option SeqOut) : ExecOut :=
  if home then sweepRecover recover
  else ⟨⟨false, "checkboxes_not_found"⟩, Ctx.top, 0⟩

/-- Step 12, the iframe checkbox sweep.  When the iframe wait times out
the raise lands in the step-12 TimeoutException handler with the context
still top-level; when the iframe is entered, a timeout waiting for the
checkboxes restores the top-level context inside the same handler before
any recovery, any other exception restores the top-level context in the
except-Exception handler returning checkbox_processing_error, and on
success the sweep runs (element failures are skipped) and the context is
restored before proceeding to step 13. -/
def step12Sweep (e : IterEnv) (recover : Option SeqOut) (k : ExecOut) : ExecOut :=
  if e.iframe.iframeFound = false then sweepTimeoutHandler e.homeAfterBoxes recover
  else
    match e.iframe.boxesWait with
    | .ok => k
    | .timeout => sweepTimeoutHandler e.homeAfterBoxes recover
    | .err => ⟨⟨false, "checkbox_processing_error"⟩, Ctx.top, 0⟩

/-- Embedding of execute_remaining_steps (steps 1.5 and 2 to 20), written
as the chain of step combinators in code order; ctx0 is the driver
context at entry, restored to the top-level document at the start of
steps 9 and 13 and around the iframe of step 12.  recover is the result
that a restart of the whole sequence from step 1 would produce,
available to the step-12 timeout handler when retry budget remains. -/
def execute_remaining_steps (e : IterEnv) (recover : Option SeqOut) (ctx0 : Ctx) : ExecOut :=
  linStep e.step2 "element_not_found" "error" ctx0 <|
  linStep e.step3 "element_not_found" "error" ctx0 <|
  linStep e.step4 "element_not_found" "error" ctx0 <|
  gateStep e.gate ctx0 <|
  linStep e.step6 "checkbox_not_found" "error" ctx0 <|
  linStep e.step7 "tab_not_found" "error" ctx0 <|
  linStep e.step8 "modify_button_not_found" "error" ctx0 <|
  linStep e.step9 "modal_close_not_found" "error" Ctx.top <|
  swallowStep e.step10 "popup_close_not_found" Ctx.top <|
  step11Gate e.step11 Ctx.top <|
  step12Sweep e recover <|
  linStep e.step13 "modal_close_2_not_found" "error" Ctx.top <|
  swallowStep e.step14 "popup_close_not_found" Ctx.top <|
  linStep e.step15 "save_options_not_found" "error" Ctx.top <|
  linStep e.step16 "file_movement_not_found" "error" Ctx.top <|
  warnStep e.step17 "error" Ctx.top <|
  linStep e.step18 "element_not_found" "error" Ctx.top <|
  linStep e.step19 "element_not_found" "error" Ctx.top <|
  linStep e.step20 "element_not_found" "error" Ctx.top <|
  ⟨⟨true, "completed"⟩, Ctx.top, 0⟩

/-- Embedding of run_automation_internal.  The Python function carries
retry_count and max_retries and recurses with retry_count + 1 under the
guard retry_count < max_retries; here budget = max_retries - retry_count
(so the guard is budget > 0) and depth = retry_count indexes the
environment of each invocation.  Step 1 catches only TimeoutException:
any other exception there escapes the function (Except.error).  On a
step-1 timeout the recovery affordance check runs and, when it clicks and
budget remains, the whole sequence restarts; otherwise button_not_found
is returned.  On step-1 success the remaining steps run, with the restart
that the step-12 handler may use computed at depth + 1. -/
def run_automation_internal (env : ℕ → IterEnv) : ℕ → ℕ → SeqOut
  | budget, depth =>
    match (env depth).step1 with
    | .err => ⟨Except.error (), Ctx.top, 0⟩
    | .timeout =>
      match budget with
      | 0 => ⟨Except.ok ⟨false, "button_not_found"⟩, Ctx.top, 0⟩
      | b + 1 =>
        match (env depth).homeAfterStep1 with
        | true =>
          let r := run_automation_internal env b (depth + 1)
          ⟨r.res, r.ctx, r.restarts + 1⟩
        | false => ⟨Except.ok ⟨false, "button_not_found"⟩, Ctx.top, 0⟩
    | .ok =>
      let recover : Option SeqOut :=
        match budget with
        | 0 => none
        | b + 1 => some (run_automation_internal env b (depth + 1))
      let o := execute_remaining_steps (env depth) recover Ctx.top
      ⟨Except.ok o.result, o.ctx, o.restarts⟩

/-- Result fields of run_automation (processed_count is present only on
the loop exits, as in the code). -/
structure RunResult where
  success : Bool
  status : String
  processed_count : Option ℕ
deriving DecidableEq, Repr

/-- The result dictionary the Loop Controller sees from iteration i:
run_automation_internal with retry_count 0 and max_retries 2 on the
environment of that iteration. -/
def seqRes (env2 : ℕ → ℕ → IterEnv) (i : ℕ) : Except Unit StepResult :=
  (run_automation_internal (env2 i) 2 0).res

/-- The while-True loop of run_automation: i is the iteration index,
processed the processed_count, errs the consecutive-error counter;
success resets errs and increments processed; status no_approve_button
exits with status completed and the prior count; other failures
increment errs and abort with the failing status once errs reaches 3.
fuel bounds the number of iterations unfolded; none means the loop is
still running after fuel iterations. -/
def run_automation_loop (env2 : ℕ → ℕ → IterEnv) :
    ℕ → ℕ → ℕ → ℕ → Option (Except Unit RunResult)
  | 0, _, _, _ => none
  | fuel + 1, i, processed, errs =>
    match seqRes env2 i with
    | .error e => some (Except.error e)
    | .ok r =>
      if r.success then run_automation_loop env2 fuel (i + 1) (processed + 1) 0
      else if r.status = "no_approve_button" then
        some (Except.ok ⟨true, "completed", some processed⟩)
      else if 3 ≤ errs + 1 then
        some (Except.ok ⟨false, r.status, some processed⟩)
      else run_automation_loop env2 fuel (i + 1) processed (errs + 1)

/-- Embedding of run_automation: first checks the browser status, failing
with browser_not_open or not_logged_in, then runs the loop.  An exception
escaping run_automation_internal escapes run_automation as well
(Except.error). -/
def run_automation (st : GlobalState) (senv : StatusEnv) (now : ℚ)
    (env2 : ℕ → ℕ → IterEnv) (fuel : ℕ) :
    Option (Except Unit RunResult) × GlobalState :=
  let c := check_browser_status st senv now
  if c.1.browser_open = false then
    (some (Except.ok ⟨false, "browser_not_open", none⟩), c.2.1)
  else if c.1.logged_in = false then
    (some (Except.ok ⟨false, "not_logged_in", none⟩), c.2.1)
  else
    (run_automation_loop env2 fuel 0 0 0, c.2.1)

end Sequencer

section ConcreteEnvironments

/-- Gate environment of a run that finds one approve button and clicks
it. -/
def okGate : GateEnv := ⟨false, 1, .ok, some 1⟩

/-- Iteration environment in which every step succeeds: the sequencer
processes one item and returns completed. -/
def okIter : IterEnv :=
  ⟨false, .ok, false, .ok, .ok, .ok, okGate, .ok, .ok, .ok, .ok, .ok, .ok, ⟨true, .ok⟩, false,
   .ok, .ok, .ok, .ok, .ok, .ok, .ok, .ok⟩

/-- Iteration environment in which step 1 times out and the recovery
affordance is absent: the sequencer fails with button_not_found. -/
def failIter : IterEnv := { okIter with step1 := .timeout, homeAfterStep1 := false }

/-- Iteration environment in which the pending-applications table renders
with zero approve buttons: the terminal no-more-work situation. -/
def doneIter : IterEnv := { okIter with gate := ⟨false, 0, .ok, some 0⟩ }

/-- Iteration environment in which locating or clicking the Dashboard
Pendency button of step 1 raises a non-timeout exception. -/
def errIter : IterEnv := { okIter with step1 := .err }

/-- A post-login URL on the Vahan site. -/
def dashUrl : String := "https://vahan.parivahan.gov.in/vahan/ui/dashboard.xhtml"

/-- The Vahan login page URL. -/
def loginPageUrl : String := "https://vahan.parivahan.gov.in/vahan/vahan/ui/login/login.xhtml"

/-- Status environment of a live, authenticated session. -/
def senvLoggedIn : StatusEnv := ⟨true, true, true, .ok dashUrl⟩

/-- Status environment of a live session still sitting on the login
page. -/
def senvNotLogged : StatusEnv := ⟨true, true, true, .ok loginPageUrl⟩

/-- Status environment with the debug port closed. -/
def senvClosed : StatusEnv := ⟨false, true, true, .error ()⟩

/-- Global state holding a driver with the login flag set and no session
file. -/
def stOpen : GlobalState := ⟨some (), true, none⟩

/-- Login-wait environment in which the first poll tick observes the URL
moved from the login page to the dashboard. -/
def waitOkEnv : LoginEnv := ⟨.ok loginPageUrl, fun _ => .ok dashUrl, fun _ => false⟩

/-- Start environment of the C9 failing input: the status check finds the
browser on the login page, and the human then completes the login within
the wait. -/
def startEnvC9 : StartEnv :=
  ⟨senvNotLogged, 7, waitOkEnv, 1, senvNotLogged, true, fun _ => .timeout, waitOkEnv, 1, 9⟩

/-- Iteration environments for the C3 witness: step 1 always times out
and the recovery affordance is present on exactly the first five recovery
checks. -/
def c3Env : ℕ → IterEnv :=
  fun d => { okIter with step1 := .timeout, homeAfterStep1 := decide (d < 5) }

/-- Iteration environments for the C2 witness: the first iteration
processes an item, the second finds the empty table. -/
def c2Env : ℕ → ℕ → IterEnv := fun i _ => if i = 0 then okIter else doneIter

/-- Constant sequencer environment built from failIter. -/
def failEnv : ℕ → IterEnv := fun _ => failIter

/-- Constant loop environment built from failIter. -/
def failEnv2 : ℕ → ℕ → IterEnv := fun _ _ => failIter

/-- Constant sequencer environment built from errIter. -/
def errEnv : ℕ → IterEnv := fun _ => errIter

/-- Constant loop environment built from errIter. -/
def errEnv2 : ℕ → ℕ → IterEnv := fun _ _ => errIter

end ConcreteEnvironments

/-- Characterisation of the polling loop of wait_for_login, with the tick
offset generalised: the loop starting at tick n with the given fuel
returns true exactly when some tick within the fuel budget satisfies the
success condition and every read up to that tick succeeded. -/
theorem wait_for_login_go_iff (env : LoginEnv) (loginUrl : String) :
    ∀ (fuel n : ℕ), wait_for_login_go loginUrl env fuel n = true ↔
      ∃ j, j < fuel ∧ (∀ i, i ≤ j → readOk (env.reads (n + i)) = true) ∧
        login_success_tick loginUrl env (n + j) = true := by
  intro fuel
  induction fuel with
  | zero =>
    intro n
    simp [wait_for_login_go]
  | succ fuel ih =>
    intro n
    cases hr : env.reads n with
    | error e =>
      simp only [wait_for_login_go, hr, Bool.false_eq_true, false_iff]
      rintro ⟨j, _, hok, _⟩
      have h0 := hok 0 (Nat.zero_le j)
      rw [Nat.add_zero, hr] at h0
      simp [readOk] at h0
    | ok url =>
      cases hc : decide (url ≠ loginUrl) && !containsSub (lowerStr url) "login" with
      | true =>
        simp only [wait_for_login_go, hr, hc, true_iff]
        refine ⟨0, Nat.succ_pos fuel, ?_, ?_⟩
        · intro i hi
          have hi0 : i = 0 := Nat.le_zero.mp hi
          rw [hi0, Nat.add_zero, hr]
          rfl
        · rw [Nat.add_zero]
          simp only [login_success_tick, hr, hc, Bool.true_or]
      | false =>
        cases hm : env.markers n with
        | true =>
          simp only [wait_for_login_go, hr, hc, hm, true_iff]
          refine ⟨0, Nat.succ_pos fuel, ?_, ?_⟩
          · intro i hi
            have hi0 : i = 0 := Nat.le_zero.mp hi
            rw [hi0, Nat.add_zero, hr]
            rfl
          · rw [Nat.add_zero]
            simp only [login_success_tick, hr, hm, Bool.or_true]
        | false =>
          have hstep : wait_for_login_go loginUrl env (fuel + 1) n =
              wait_for_login_go loginUrl env fuel (n + 1) := by
            simp only [wait_for_login_go, hr, hc, hm]
          rw [hstep, ih (n + 1)]
          constructor
          · rintro ⟨j, hj, hok, ht⟩
            refine ⟨j + 1, by omega, ?_, ?_⟩
            · intro i hi
              cases i with
              | zero =>
                rw [Nat.add_zero, hr]
                rfl
              | succ i =>
                have h := hok i (by omega)
                have e : n + (i + 1) = n + 1 + i := by omega
                rw [e]
                exact h
            · have e : n + (j + 1) = n + 1 + j := by omega
              rw [e]
              exact ht
          · rintro ⟨j, hj, hok, ht⟩
            cases j with
            | zero =>
              exfalso
              rw [Nat.add_zero] at ht
              simp only [login_success_tick, hr] at ht
              rw [hc, hm] at ht
              simp at ht
            | succ j =>
              refine ⟨j, by omega, ?_, ?_⟩
              · intro i hi
                have h := hok (i + 1) (by omega)
                have e : n + (i + 1) = n + 1 + i := by omega
                rw [e] at h
                exact h
              · have e : n + (j + 1) = n + 1 + j := by omega
                rw [e] at ht
                exact ht

/-- C8: the Login Gate returns true exactly when the initial location read
succeeds and some poll tick within the timeout budget both had all its
location reads succeed so far and satisfied the success condition (the
location changed away from the initial one without matching the login
pattern, or a post-login marker was present).  In every other situation,
in particular when a location read fails (a lost connection included) or
when the fuel is exhausted with neither condition observed, it returns
false. -/
theorem wait_for_login_iff (env : LoginEnv) (fuel : ℕ) :
    wait_for_login env fuel = true ↔
      ∃ loginUrl, env.initialRead = Except.ok loginUrl ∧
        ∃ j, j < fuel ∧ (∀ i, i ≤ j → readOk (env.reads i) = true) ∧
          login_success_tick loginUrl env j = true := by
  unfold wait_for_login
  cases hi : env.initialRead with
  | error e =>
    simp only [Bool.false_eq_true, false_iff]
    rintro ⟨u, hu, _⟩
    exact Except.noConfusion hu
  | ok loginUrl =>
    rw [wait_for_login_go_iff env loginUrl fuel 0]
    constructor
    · rintro ⟨j, hj, hok, ht⟩
      refine ⟨loginUrl, rfl, j, hj, ?_, ?_⟩
      · intro i hle
        have h := hok i hle
        rwa [Nat.zero_add] at h
      · rwa [Nat.zero_add] at ht
    · rintro ⟨u, hu, j, hj, hok, ht⟩
      injection hu with hu'
      subst hu'
      refine ⟨j, hj, ?_, ?_⟩
      · intro i hle
        rw [Nat.zero_add]
        exact hok i hle
      · rwa [Nat.zero_add]

/-- Round trip of the session store (helper for the C6 theorem): loading a
freshly saved record reproduces it exactly when the elapsed time is below
the 3600 second window. -/
theorem load_save_eq (hd li : Bool) (t now : ℚ) :
    load_session_info (some (save_session_info hd li t)) now =
      if now - t < 3600 then some (save_session_info hd li t) else none := rfl

/-- C6: writing a Session Record and reading it back strictly within the
3600-second freshness window reproduces the stored hasSession and
isAuthenticated values; reading at or after the window returns absent
regardless of the stored content. -/
theorem session_record_roundtrip :
    (∀ (hd li : Bool) (t now : ℚ), now - t < 3600 →
      load_session_info (some (save_session_info hd li t)) now =
        some { has_driver := hd, is_logged_in := li, timestamp := t }) ∧
    (∀ (r : SessionRecord) (now : ℚ), 3600 ≤ now - r.timestamp →
      load_session_info (some r) now = none) := by
  constructor
  · intro hd li t now h
    simp [load_session_info, save_session_info, h]
  · intro r now h
    simp [load_session_info, not_lt.mpr h]

/-- Witness for session_record_roundtrip: both parts applied at concrete
times, one inside the window and one at its boundary. -/
theorem session_record_roundtrip_witness :
    ((10 : ℚ) - 5 < 3600 ∧
      load_session_info (some (save_session_info true false 5)) 10 =
        some { has_driver := true, is_logged_in := false, timestamp := 5 }) ∧
    ((3600 : ℚ) ≤ 3700 - 100 ∧
      load_session_info (some ({ has_driver := true, is_logged_in := true, timestamp := 100 } : SessionRecord)) 3700 = none) :=
  ⟨⟨by norm_num, session_record_roundtrip.1 true false 5 10 (by norm_num)⟩,
   ⟨by norm_num, session_record_roundtrip.2 { has_driver := true, is_logged_in := true, timestamp := 100 } 3700 (by norm_num)⟩⟩

/-- C5: when no in-memory driver handle exists, check_browser_status never
performs a browser-creation call; with the control port closed it reports
the session closed, leaves the handle absent, and its only interaction is
the port probe; with the port open it attempts an attach to the existing
endpoint. -/
theorem status_probe_never_creates (st : GlobalState) (env : StatusEnv) (now : ℚ)
    (hnd : st.driver = none) :
    Effect.createBrowser ∉ (check_browser_status st env now).2.2 ∧
    (env.portOpen = false →
      (check_browser_status st env now).1.browser_open = false ∧
      (check_browser_status st env now).2.1.driver = none ∧
      (check_browser_status st env now).2.2 = [Effect.probePort]) ∧
    (env.portOpen = true → Effect.attach ∈ (check_browser_status st env now).2.2) := by
  obtain ⟨d, l, f⟩ := st
  cases hnd
  obtain ⟨po, ao, av, ur⟩ := env
  cases po
  · simp [check_browser_status]
  · cases ao
    · simp [check_browser_status, try_connect_to_existing_chrome]
    · cases av
      · simp [check_browser_status, try_connect_to_existing_chrome]
      · cases ur with
        | error e =>
          simp [check_browser_status, try_connect_to_existing_chrome, driver_liveness_check]
        | ok url =>
          by_cases hurl : urlLoggedIn url = true
          · simp [check_browser_status, try_connect_to_existing_chrome, driver_liveness_check,
              hurl]
          · simp [check_browser_status, try_connect_to_existing_chrome, driver_liveness_check,
              hurl]

/-- Witness for status_probe_never_creates: the probe with no driver and
the port closed. -/
theorem status_probe_never_creates_witness :
    (⟨none, false, none⟩ : GlobalState).driver = none ∧
    (Effect.createBrowser ∉ (check_browser_status ⟨none, false, none⟩ senvClosed 0).2.2 ∧
    (senvClosed.portOpen = false →
      (check_browser_status ⟨none, false, none⟩ senvClosed 0).1.browser_open = false ∧
      (check_browser_status ⟨none, false, none⟩ senvClosed 0).2.1.driver = none ∧
      (check_browser_status ⟨none, false, none⟩ senvClosed 0).2.2 = [Effect.probePort]) ∧
    (senvClosed.portOpen = true →
      Effect.attach ∈ (check_browser_status ⟨none, false, none⟩ senvClosed 0).2.2)) :=
  ⟨rfl, status_probe_never_creates ⟨none, false, none⟩ senvClosed 0 rfl⟩

/-- C10 counterexample: from the state with no driver handle but the
login flag still set, close_vahan_browser returns with the login flag
still true, so it does not always leave the flag false. -/
theorem close_browser_counterexample :
    ¬ ((close_vahan_browser ⟨none, true, none⟩ true).2.1.loggedIn = false) := by
  decide

/-- C10 amended: close_vahan_browser always clears the handle and deletes
the session record; when a handle exists it also resets the login flag
and returns true exactly when the quit did not raise; when no handle
exists it returns true and leaves the login flag unchanged. -/
theorem close_browser_state (st : GlobalState) (quitOk : Bool) :
    (close_vahan_browser st quitOk).2.1.driver = none ∧
    (close_vahan_browser st quitOk).2.1.file = none ∧
    (st.driver ≠ none →
      (close_vahan_browser st quitOk).2.1.loggedIn = false ∧
      (close_vahan_browser st quitOk).1 = quitOk) ∧
    (st.driver = none →
      (close_vahan_browser st quitOk).1 = true ∧
      (close_vahan_browser st quitOk).2.1.loggedIn = st.loggedIn) := by
  obtain ⟨d, l, f⟩ := st
  cases d <;> cases quitOk <;> simp [close_vahan_browser]

/-- Witness for close_browser_state: closing a live session whose quit
raises. -/
theorem close_browser_state_witness :
    (⟨some (), true, none⟩ : GlobalState).driver ≠ none ∧
    ((close_vahan_browser ⟨some (), true, none⟩ false).2.1.loggedIn = false ∧
      (close_vahan_browser ⟨some (), true, none⟩ false).1 = false) :=
  ⟨by decide, (close_browser_state ⟨some (), true, none⟩ false).2.2.1 (by decide)⟩

/-- C9: evaluation of the failing input.  The browser is open on the login
page (so the status check inside start_vahan_browser writes a record with
is_logged_in false), the human completes the login, and the operation
returns login_success with the in-memory flag flipped to true while the
persisted record still carries is_logged_in false: the status transition
is not persisted before the operation returns. -/
theorem start_browser_reused_login_skips_save :
    start_vahan_browser ⟨some (), false, none⟩ startEnvC9 =
      (⟨true, "login_success", none⟩,
        ⟨some (), true, some ⟨true, false, 7⟩⟩) := by
  decide

/-- Context helper: a linear step at top-level context keeps the returned
context top-level when its continuation does. -/
theorem linStep_ctx_top (o : StepOutcome) (t s : String) (k : ExecOut)
    (hk : k.ctx = Ctx.top) : (linStep o t s Ctx.top k).ctx = Ctx.top := by
  cases o <;> simp [linStep, hk]

/-- Context helper for the swallow-all steps. -/
theorem swallowStep_ctx_top (o : StepOutcome) (s : String) (k : ExecOut)
    (hk : k.ctx = Ctx.top) : (swallowStep o s Ctx.top k).ctx = Ctx.top := by
  cases o <;> simp [swallowStep, hk]

/-- Context helper for the warn-only step. -/
theorem warnStep_ctx_top (o : StepOutcome) (s : String) (k : ExecOut)
    (hk : k.ctx = Ctx.top) : (warnStep o s Ctx.top k).ctx = Ctx.top := by
  cases o <;> simp [warnStep, hk]

/-- Context helper for the gate recheck handler. -/
theorem gateRecheck_ctx_top (g : GateEnv) : (gateRecheck g Ctx.top).ctx = Ctx.top := by
  rcases g with ⟨tt, ac, co, rr⟩
  rcases rr with _ | n
  · simp [gateRecheck]
  · rcases n with _ | n <;> simp [gateRecheck]

/-- Context helper for the work-item gate. -/
theorem gateStep_ctx_top (g : GateEnv) (k : ExecOut)
    (hk : k.ctx = Ctx.top) : (gateStep g Ctx.top k).ctx = Ctx.top := by
  unfold gateStep
  split
  · exact gateRecheck_ctx_top g
  · split
    · rfl
    · cases g.clickOutcome
      · exact hk
      · exact gateRecheck_ctx_top g
      · rfl

/-- Context helper for step 11. -/
theorem step11Gate_ctx_top (o : Step11Outcome) (k : ExecOut)
    (hk : k.ctx = Ctx.top) : (step11Gate o Ctx.top k).ctx = Ctx.top := by
  cases o <;> simp [step11Gate, hk]

/-- Context helper for the use of the restart result: the handler returns
with the context the restarted sequence ended in. -/
theorem sweepRecover_ctx_top (recover : Option SeqOut)
    (h : ∀ r, recover = some r → r.ctx = Ctx.top) :
    (sweepRecover recover).ctx = Ctx.top := by
  cases hr : recover with
  | none => simp [sweepRecover]
  | some r =>
    have hc := h r hr
    obtain ⟨res, rctx, n⟩ := r
    cases hc
    cases res <;> simp [sweepRecover]

/-- Context helper for the step-12 timeout handler. -/
theorem sweepTimeoutHandler_ctx_top (home : Bool) (recover : Option SeqOut)
    (h : ∀ r, recover = some r → r.ctx = Ctx.top) :
    (sweepTimeoutHandler home recover).ctx = Ctx.top := by
  cases home <;> simp [sweepTimeoutHandler]
  exact sweepRecover_ctx_top recover h

/-- Context helper for the whole iframe checkbox-sweep step: every exit
path of step 12 leaves the driver at the top-level document. -/
theorem step12Sweep_ctx_top (e : IterEnv) (recover : Option SeqOut) (k : ExecOut)
    (h : ∀ r, recover = some r → r.ctx = Ctx.top)
    (hk : k.ctx = Ctx.top) : (step12Sweep e recover k).ctx = Ctx.top := by
  unfold step12Sweep
  split
  · exact sweepTimeoutHandler_ctx_top e.homeAfterBoxes recover h
  · cases e.iframe.boxesWait
    · exact hk
    · exact sweepTimeoutHandler_ctx_top e.homeAfterBoxes recover h
    · rfl

/-- Context discipline of execute_remaining_steps when entered at the
top-level document and handed restart results that themselves end at the
top-level document. -/
theorem execute_remaining_steps_ctx_top (e : IterEnv) (recover : Option SeqOut)
    (h : ∀ r, recover = some r → r.ctx = Ctx.top) :
    (execute_remaining_steps e recover Ctx.top).ctx = Ctx.top := by
  unfold execute_remaining_steps
  apply linStep_ctx_top
  apply linStep_ctx_top
  apply linStep_ctx_top
  apply gateStep_ctx_top
  apply linStep_ctx_top
  apply linStep_ctx_top
  apply linStep_ctx_top
  apply linStep_ctx_top
  apply swallowStep_ctx_top
  apply step11Gate_ctx_top
  apply step12Sweep_ctx_top _ _ _ h
  apply linStep_ctx_top
  apply swallowStep_ctx_top
  apply linStep_ctx_top
  apply linStep_ctx_top
  apply warnStep_ctx_top
  apply linStep_ctx_top
  apply linStep_ctx_top
  apply linStep_ctx_top
  rfl

/-- C7: on every exit of the Step Sequencer, the normal completion of the
iframe checkbox sweep, its locate-timeout and any other exception
included, the driver execution context has been restored to the top-level
document: the sequencer never returns while the driver is still inside
the nested frame. -/
theorem sequencer_returns_top_context (env : ℕ → IterEnv) :
    ∀ (budget depth : ℕ), (run_automation_internal env budget depth).ctx = Ctx.top := by
  intro budget
  induction budget with
  | zero =>
    intro depth
    rw [run_automation_internal]
    cases h1 : (env depth).step1
    · apply execute_remaining_steps_ctx_top
      intro r hr
      exact Option.noConfusion hr
    · rfl
    · rfl
  | succ b ih =>
    intro depth
    rw [run_automation_internal]
    cases h1 : (env depth).step1
    · apply execute_remaining_steps_ctx_top
      intro r hr
      have hre : r = run_automation_internal env b (depth + 1) := by
        injection hr with h
        exact h.symm
      rw [hre]
      exact ih (depth + 1)
    · cases hh : (env depth).homeAfterStep1
      · simp only [hh]
      · simp only [hh]
        exact ih (depth + 1)
    · rfl

/-- C4 counterexample: with a non-timeout exception while locating or
clicking the step-1 Dashboard Pendency button, the exception escapes both
run_automation_internal and run_automation instead of being converted to
a structured result: the propagation policy of the claim does not hold as
stated. -/
theorem step1_exception_escapes :
    (run_automation_internal errEnv 2 0).res = Except.error () ∧
    (run_automation stOpen senvLoggedIn 0 errEnv2 1).1 = some (Except.error ()) :=
  ⟨rfl, rfl⟩

/-- Helper for the amended C4: when no invocation of step 1 raises a
non-timeout exception, run_automation_internal always returns a
structured result. -/
theorem internal_res_ok (env : ℕ → IterEnv)
    (h : ∀ d, (env d).step1 ≠ StepOutcome.err) :
    ∀ budget depth, ∃ s, (run_automation_internal env budget depth).res = Except.ok s := by
  intro budget
  induction budget with
  | zero =>
    intro depth
    rw [run_automation_internal]
    cases h1 : (env depth).step1
    · exact ⟨_, rfl⟩
    · exact ⟨_, rfl⟩
    · exact absurd h1 (h depth)
  | succ b ih =>
    intro depth
    rw [run_automation_internal]
    cases h1 : (env depth).step1
    · exact ⟨_, rfl⟩
    · cases hh : (env depth).homeAfterStep1
      · exact ⟨_, rfl⟩
      · simp only [hh]
        obtain ⟨s, hs⟩ := ih (depth + 1)
        exact ⟨s, hs⟩
    · exact absurd h1 (h depth)

/-- Helper for the amended C4: the Loop Controller loop never produces an
escaped exception when no step 1 of any iteration raises a non-timeout
exception. -/
theorem loop_no_error (env2 : ℕ → ℕ → IterEnv)
    (h : ∀ i d, ((env2 i) d).step1 ≠ StepOutcome.err) :
    ∀ (fuel i p e : ℕ), run_automation_loop env2 fuel i p e ≠ some (Except.error ()) := by
  intro fuel
  induction fuel with
  | zero =>
    intro i p e
    simp [run_automation_loop]
  | succ f ih =>
    intro i p e
    obtain ⟨s, hs⟩ := internal_res_ok (env2 i) (h i) 2 0
    have hseq : seqRes env2 i = Except.ok s := hs
    rw [run_automation_loop, hseq]
    by_cases h1 : s.success = true
    · simp only [h1, if_true]
      exact ih (i + 1) (p + 1) 0
    · by_cases h2 : s.status = "no_approve_button"
      · simp [h1, h2]
      · by_cases h3 : 3 ≤ e + 1
        · simp [h1, h2, h3]
        · simp only [h1, h2, h3, if_false]
          exact ih (i + 1) p (e + 1)

/-- C4 amended: exceptions raised inside steps 2 to 20 are all caught
inside execute_remaining_steps and converted to structured results, but
the step-1 handler catches only locate-timeouts, so a non-timeout
exception at step 1 propagates out of the Step Sequencer and the Loop
Controller; whenever no invocation of step 1 raises a non-timeout
exception, both components return structured results and nothing
escapes. -/
theorem no_escape_without_step1_exception :
    (∀ (env : ℕ → IterEnv), (∀ d, (env d).step1 ≠ StepOutcome.err) →
      ∀ budget depth, ∃ s, (run_automation_internal env budget depth).res = Except.ok s) ∧
    (∀ (st : GlobalState) (senv : StatusEnv) (now : ℚ) (env2 : ℕ → ℕ → IterEnv) (fuel : ℕ),
      (∀ i d, ((env2 i) d).step1 ≠ StepOutcome.err) →
      (run_automation st senv now env2 fuel).1 ≠ some (Except.error ())) := by
  constructor
  · exact fun env h => internal_res_ok env h
  · intro st senv now env2 fuel h
    unfold run_automation
    by_cases hb : (check_browser_status st senv now).1.browser_open = false
    · simp [hb]
    · by_cases hl : (check_browser_status st senv now).1.logged_in = false
      · simp [hb, hl]
      · simp only [hb, hl, if_false]
        exact loop_no_error env2 h fuel 0 0 0

/-- Witness for no_escape_without_step1_exception: a run whose step 1
always times out without recovery. -/
theorem no_escape_without_step1_exception_witness :
    ((∀ d, (failEnv d).step1 ≠ StepOutcome.err) ∧
      ∃ s, (run_automation_internal failEnv 2 0).res = Except.ok s) ∧
    ((∀ i d, ((failEnv2 i) d).step1 ≠ StepOutcome.err) ∧
      (run_automation stOpen senvLoggedIn 0 failEnv2 1).1 ≠ some (Except.error ())) :=
  ⟨⟨fun _ h => (nomatch h), no_escape_without_step1_exception.1 failEnv
      (fun _ h => (nomatch h)) 2 0⟩,
   ⟨fun _ _ h => (nomatch h), no_escape_without_step1_exception.2 stOpen senvLoggedIn 0
      failEnv2 1 (fun _ _ h => (nomatch h))⟩⟩

/-- C3: with recovery budget 2 (retry_count 0, max_retries 2), a step-1
locate-timeout on every invocation and the recovery affordance present on
exactly the first k recovery checks, the sequencer restarts the step
sequence from step 1 exactly min k 2 times and returns the fatal
button_not_found step failure. -/
theorem bounded_recovery_min_restarts (env : ℕ → IterEnv) (k : ℕ)
    (h1 : ∀ d, (env d).step1 = StepOutcome.timeout)
    (h2 : ∀ d, (env d).homeAfterStep1 = decide (d < k)) :
    run_automation_internal env 2 0 =
      ⟨Except.ok ⟨false, "button_not_found"⟩, Ctx.top, min k 2⟩ := by
  rcases k with _ | _ | k
  · have e0 : (env 0).homeAfterStep1 = false := by rw [h2 0]; rfl
    have hm : min 0 2 = 0 := by omega
    rw [hm, run_automation_internal, h1 0, e0]
  · have e0 : (env 0).homeAfterStep1 = true := by rw [h2 0]; rfl
    have e1 : (env 1).homeAfterStep1 = false := by rw [h2 1]; rfl
    have hm : min 1 2 = 1 := by omega
    rw [hm, run_automation_internal, h1 0, e0]
    rw [run_automation_internal, h1 1, e1]
  · have e0 : (env 0).homeAfterStep1 = true := by
      rw [h2 0]
      exact decide_eq_true (by omega)
    have e1 : (env 1).homeAfterStep1 = true := by
      rw [h2 1]
      exact decide_eq_true (by omega)
    have hm : min (k + 1 + 1) 2 = 2 := by omega
    rw [hm]
    rw [run_automation_internal, h1 0, e0]
    rw [run_automation_internal, h1 1, e1]
    rw [run_automation_internal, h1 2]

/-- Witness for bounded_recovery_min_restarts: affordance present on the
first five recovery checks, so the sequencer restarts twice. -/
theorem bounded_recovery_min_restarts_witness :
    ((∀ d, (c3Env d).step1 = StepOutcome.timeout) ∧
      (∀ d, (c3Env d).homeAfterStep1 = decide (d < 5))) ∧
    run_automation_internal c3Env 2 0 =
      ⟨Except.ok ⟨false, "button_not_found"⟩, Ctx.top, min 5 2⟩ :=
  ⟨⟨fun _ => rfl, fun _ => rfl⟩,
   bounded_recovery_min_restarts c3Env 5 (fun _ => rfl) (fun _ => rfl)⟩

/-- Helper: one failing loop iteration below the error bound pauses and
continues with the consecutive-error counter incremented. -/
theorem loop_error_step (env2 : ℕ → ℕ → IterEnv) (fuel i p e : ℕ) (s : StepResult)
    (hs : seqRes env2 i = Except.ok s) (hf : s.success = false)
    (hn : s.status ≠ "no_approve_button") (he : e + 1 < 3) :
    run_automation_loop env2 (fuel + 1) i p e =
      run_automation_loop env2 fuel (i + 1) p (e + 1) := by
  have h3 : ¬ 3 ≤ e + 1 := by omega
  rw [run_automation_loop, hs]
  simp [hf, hn, h3]

/-- Helper: the failing loop iteration that reaches the error bound
returns the failing status and the processed count. -/
theorem loop_error_stop (env2 : ℕ → ℕ → IterEnv) (fuel i p e : ℕ) (s : StepResult)
    (hs : seqRes env2 i = Except.ok s) (hf : s.success = false)
    (hn : s.status ≠ "no_approve_button") (he : 3 ≤ e + 1) :
    run_automation_loop env2 (fuel + 1) i p e =
      some (Except.ok ⟨false, s.status, some p⟩) := by
  rw [run_automation_loop, hs]
  simp [hf, hn, he]

/-- C1: when every Step Sequencer invocation returns a failure result
(neither a success nor the terminal no_approve_button signal), the Loop
Controller stops after exactly three consecutive failures, returning the
processedCount accumulated so far (zero) and the status code of the last
error; with only two iterations of fuel the loop is still running, and a
successful iteration resets the consecutive-error counter to zero. -/
theorem loop_stops_after_three_failures (st : GlobalState) (senv : StatusEnv) (now : ℚ)
    (env2 : ℕ → ℕ → IterEnv)
    (hopen : (check_browser_status st senv now).1.browser_open = true)
    (hlog : (check_browser_status st senv now).1.logged_in = true)
    (hfail : ∀ i, ∃ s, seqRes env2 i = Except.ok s ∧ s.success = false ∧
      s.status ≠ "no_approve_button") :
    (∀ s2, seqRes env2 2 = Except.ok s2 →
      ∀ fuel, 3 ≤ fuel →
        (run_automation st senv now env2 fuel).1 =
          some (Except.ok ⟨false, s2.status, some 0⟩)) ∧
    (run_automation st senv now env2 2).1 = none ∧
    (∀ (fuel i p e : ℕ) (s : StepResult), seqRes env2 i = Except.ok s →
      s.success = true →
      run_automation_loop env2 (fuel + 1) i p e =
        run_automation_loop env2 fuel (i + 1) (p + 1) 0) := by
  obtain ⟨s0, hs0, hf0, hn0⟩ := hfail 0
  obtain ⟨s1, hs1, hf1, hn1⟩ := hfail 1
  obtain ⟨s2', hs2, hf2, hn2⟩ := hfail 2
  have hwrap : ∀ fuel, (run_automation st senv now env2 fuel).1 =
      run_automation_loop env2 fuel 0 0 0 := by
    intro fuel
    simp [run_automation, hopen, hlog]
  refine ⟨?_, ?_, ?_⟩
  · intro s2 hs2' fuel hfuel
    have hs22 : s2' = s2 := by
      rw [hs2] at hs2'
      injection hs2'
    obtain ⟨f, rfl⟩ : ∃ f, fuel = f + 3 := ⟨fuel - 3, by omega⟩
    rw [hwrap]
    have h01 : run_automation_loop env2 (f + 2 + 1) 0 0 0 =
        run_automation_loop env2 (f + 2) 1 0 1 :=
      loop_error_step env2 (f + 2) 0 0 0 s0 hs0 hf0 hn0 (by omega)
    have h12 : run_automation_loop env2 (f + 1 + 1) 1 0 1 =
        run_automation_loop env2 (f + 1) 2 0 2 :=
      loop_error_step env2 (f + 1) 1 0 1 s1 hs1 hf1 hn1 (by omega)
    have h23 : run_automation_loop env2 (f + 1) 2 0 2 =
        some (Except.ok ⟨false, s2'.status, some 0⟩) :=
      loop_error_stop env2 f 2 0 2 s2' hs2 hf2 hn2 (by omega)
    calc run_automation_loop env2 (f + 3) 0 0 0
        = run_automation_loop env2 (f + 2) 1 0 1 := h01
      _ = run_automation_loop env2 (f + 1) 2 0 2 := h12
      _ = some (Except.ok ⟨false, s2'.status, some 0⟩) := h23
      _ = some (Except.ok ⟨false, s2.status, some 0⟩) := by rw [hs22]
  · rw [hwrap]
    have ha : run_automation_loop env2 (1 + 1) 0 0 0 =
        run_automation_loop env2 1 1 0 1 :=
      loop_error_step env2 1 0 0 0 s0 hs0 hf0 hn0 (by omega)
    have hb : run_automation_loop env2 (0 + 1) 1 0 1 =
        run_automation_loop env2 0 2 0 2 :=
      loop_error_step env2 0 1 0 1 s1 hs1 hf1 hn1 (by omega)
    calc run_automation_loop env2 2 0 0 0
        = run_automation_loop env2 1 1 0 1 := ha
      _ = run_automation_loop env2 0 2 0 2 := hb
      _ = none := rfl
  · intro fuel i p e s hs hsu
    rw [run_automation_loop, hs]
    simp [hsu]

/-- Witness for loop_stops_after_three_failures: every iteration fails
with button_not_found. -/
theorem loop_stops_after_three_failures_witness :
    ((check_browser_status stOpen senvLoggedIn 0).1.browser_open = true ∧
      (check_browser_status stOpen senvLoggedIn 0).1.logged_in = true ∧
      (∀ i, ∃ s, seqRes failEnv2 i = Except.ok s ∧ s.success = false ∧
        s.status ≠ "no_approve_button")) ∧
    ((∀ s2, seqRes failEnv2 2 = Except.ok s2 →
      ∀ fuel, 3 ≤ fuel →
        (run_automation stOpen senvLoggedIn 0 failEnv2 fuel).1 =
          some (Except.ok ⟨false, s2.status, some 0⟩)) ∧
    (run_automation stOpen senvLoggedIn 0 failEnv2 2).1 = none ∧
    (∀ (fuel i p e : ℕ) (s : StepResult), seqRes failEnv2 i = Except.ok s →
      s.success = true →
      run_automation_loop failEnv2 (fuel + 1) i p e =
        run_automation_loop failEnv2 fuel (i + 1) (p + 1) 0)) :=
  ⟨⟨by decide, by decide,
    fun _ => ⟨⟨false, "button_not_found"⟩, rfl, rfl, by decide⟩⟩,
   loop_stops_after_three_failures stOpen senvLoggedIn 0 failEnv2 (by decide) (by decide)
     (fun _ => ⟨⟨false, "button_not_found"⟩, rfl, rfl, by decide⟩)⟩

/-- Helper for C2: when steps 2 to 4 succeed, the table renders and the
approve-button query returns zero elements, execute_remaining_steps
returns the terminal no_approve_button result at once, for every value of
the restart argument and of the later-step environment fields. -/
theorem exec_gate_empty (e : IterEnv) (recover : Option SeqOut) (ctx0 : Ctx)
    (h2 : e.step2 = StepOutcome.ok) (h3 : e.step3 = StepOutcome.ok)
    (h4 : e.step4 = StepOutcome.ok) (hg1 : e.gate.tableTimeout = false)
    (hg2 : e.gate.approveCount = 0) :
    execute_remaining_steps e recover ctx0 =
      ⟨⟨false, "no_approve_button"⟩, ctx0, 0⟩ := by
  unfold execute_remaining_steps
  rw [h2, h3, h4]
  simp [linStep, gateStep, hg1, hg2]

/-- Helper for C2: the terminal gate result at the sequencer level. -/
theorem seq_terminal_of_gate_empty (env : ℕ → IterEnv) (budget depth : ℕ)
    (h1 : (env depth).step1 = StepOutcome.ok)
    (h2 : (env depth).step2 = StepOutcome.ok) (h3 : (env depth).step3 = StepOutcome.ok)
    (h4 : (env depth).step4 = StepOutcome.ok)
    (hg1 : (env depth).gate.tableTimeout = false)
    (hg2 : (env depth).gate.approveCount = 0) :
    (run_automation_internal env budget depth).res =
      Except.ok ⟨false, "no_approve_button"⟩ := by
  cases budget with
  | zero =>
    rw [run_automation_internal, h1]
    simp only [exec_gate_empty (env depth) none Ctx.top h2 h3 h4 hg1 hg2]
  | succ b =>
    rw [run_automation_internal, h1]
    simp only [exec_gate_empty (env depth) (some (run_automation_internal env b (depth + 1)))
      Ctx.top h2 h3 h4 hg1 hg2]

/-- Helper for C2: the loop after n successful iterations followed by a
terminal iteration returns completed with the count incremented exactly n
times. -/
theorem loop_completes_aux (env2 : ℕ → ℕ → IterEnv) :
    ∀ (n fuel i p e : ℕ), n < fuel →
      (∀ j, j < n → ∃ s, seqRes env2 (i + j) = Except.ok s ∧ s.success = true) →
      (∃ s, seqRes env2 (i + n) = Except.ok s ∧ s.success = false ∧
        s.status = "no_approve_button") →
      run_automation_loop env2 fuel i p e =
        some (Except.ok ⟨true, "completed", some (p + n)⟩) := by
  intro n
  induction n with
  | zero =>
    intro fuel i p e hf _ ht
    obtain ⟨s, hs, hsf, hst⟩ := ht
    rw [Nat.add_zero] at hs
    obtain ⟨f, rfl⟩ : ∃ f, fuel = f + 1 := ⟨fuel - 1, by omega⟩
    rw [run_automation_loop, hs]
    simp [hsf, hst]
  | succ n ih =>
    intro fuel i p e hf hs ht
    obtain ⟨f, rfl⟩ : ∃ f, fuel = f + 1 := ⟨fuel - 1, by omega⟩
    obtain ⟨s0, hs0, hsu0⟩ := hs 0 (Nat.succ_pos n)
    rw [Nat.add_zero] at hs0
    rw [run_automation_loop, hs0]
    have hrec : run_automation_loop env2 f (i + 1) (p + 1) 0 =
        some (Except.ok ⟨true, "completed", some (p + 1 + n)⟩) := by
      refine ih f (i + 1) (p + 1) 0 (by omega) ?_ ?_
      · intro j hj
        have h := hs (j + 1) (by omega)
        rwa [show i + (j + 1) = i + 1 + j from by omega] at h
      · obtain ⟨s, hts, htf, htn⟩ := ht
        refine ⟨s, ?_, htf, htn⟩
        rwa [show i + (n + 1) = i + 1 + n from by omega] at hts
    have hpp : p + 1 + n = p + (n + 1) := by omega
    rw [hpp] at hrec
    simp [hsu0, hrec]

/-- C2: when the work-item gate step observes zero actionable approve
elements in the rendered pending-applications table, the Step Sequencer
returns the terminal no_approve_button result immediately (independently
of every later-step outcome and of the restart argument), and after n
successful iterations the Loop Controller returns status completed with
processedCount n, not incremented for the terminal iteration. -/
theorem empty_gate_completes (st : GlobalState) (senv : StatusEnv) (now : ℚ)
    (env2 : ℕ → ℕ → IterEnv) (n : ℕ)
    (hopen : (check_browser_status st senv now).1.browser_open = true)
    (hlog : (check_browser_status st senv now).1.logged_in = true)
    (hsucc : ∀ i, i < n → ∃ s, seqRes env2 i = Except.ok s ∧ s.success = true)
    (h1 : (env2 n 0).step1 = StepOutcome.ok)
    (h2 : (env2 n 0).step2 = StepOutcome.ok) (h3 : (env2 n 0).step3 = StepOutcome.ok)
    (h4 : (env2 n 0).step4 = StepOutcome.ok)
    (hg1 : (env2 n 0).gate.tableTimeout = false)
    (hg2 : (env2 n 0).gate.approveCount = 0) :
    (∀ (e : IterEnv) (recover : Option SeqOut) (ctx0 : Ctx),
      e.step2 = StepOutcome.ok → e.step3 = StepOutcome.ok → e.step4 = StepOutcome.ok →
      e.gate.tableTimeout = false → e.gate.approveCount = 0 →
      execute_remaining_steps e recover ctx0 =
        ⟨⟨false, "no_approve_button"⟩, ctx0, 0⟩) ∧
    (∀ fuel, n < fuel →
      (run_automation st senv now env2 fuel).1 =
        some (Except.ok ⟨true, "completed", some n⟩)) := by
  constructor
  · exact exec_gate_empty
  · intro fuel hf
    have hw : (run_automation st senv now env2 fuel).1 =
        run_automation_loop env2 fuel 0 0 0 := by
      simp [run_automation, hopen, hlog]
    rw [hw]
    have hterm : ∃ s, seqRes env2 (0 + n) = Except.ok s ∧ s.success = false ∧
        s.status = "no_approve_button" := by
      refine ⟨⟨false, "no_approve_button"⟩, ?_, rfl, rfl⟩
      rw [Nat.zero_add]
      exact seq_terminal_of_gate_empty (env2 n) 2 0 h1 h2 h3 h4 hg1 hg2
    have hsucc' : ∀ j, j < n → ∃ s, seqRes env2 (0 + j) = Except.ok s ∧
        s.success = true := by
      intro j hj
      rw [Nat.zero_add]
      exact hsucc j hj
    have := loop_completes_aux env2 n fuel 0 0 0 hf hsucc' hterm
    rwa [Nat.zero_add] at this

/-- Witness for empty_gate_completes: one successful iteration, then the
empty table. -/
theorem empty_gate_completes_witness :
    ((check_browser_status stOpen senvLoggedIn 0).1.browser_open = true ∧
      (∀ i, i < 1 → ∃ s, seqRes c2Env i = Except.ok s ∧ s.success = true) ∧
      (c2Env 1 0).gate.approveCount = 0) ∧
    (∀ fuel, 1 < fuel →
      (run_automation stOpen senvLoggedIn 0 c2Env fuel).1 =
        some (Except.ok ⟨true, "completed", some 1⟩)) :=
  ⟨⟨by decide,
    fun i hi => ⟨⟨true, "completed"⟩, by
      interval_cases i
      · rfl, by
      interval_cases i
      · rfl⟩,
    by decide⟩,
   (empty_gate_completes stOpen senvLoggedIn 0 c2Env 1 (by decide) (by decide)
     (fun i hi => ⟨⟨true, "completed"⟩, by interval_cases i; exact ⟨rfl, rfl⟩⟩)
     rfl rfl rfl rfl rfl rfl).2⟩

end Vahan
